import Mathlib

/-!
Verification of the `rust-webserver` repository (worker pool, router,
HTTP glue, logger) against its natural-language specification.

Shallow embedding conventions:
* Rust `String`/`&str` become Lean `String`.
* `HashMap<String, Route>` becomes an association list in which insertion
  prepends and lookup takes the first hit, which reproduces the map's
  replace-on-insert observable behaviour.
* Jobs are identified by `Nat` ids; their observable behaviour (complete
  normally or panic) is a `JobSpec` where it matters.
* Fallible Rust code (panics via `unwrap`/`assert!`) is embedded with
  `Except PanicKind` or an explicit outcome inductive.
-/

namespace RustWebserver

/-! ## Router (`src/router/router.rs`)

`Route` stores a method string and a handler (`fn() -> Option<String>` in
the source; the handler is opaque to the router, so it is a type
parameter here).  `Router.routes` models the `HashMap<String, Route>`
keyed by path: an association list where `add_route` prepends after
removing nothing — lookup takes the first (most recent) binding, which is
observationally the map's insert-replaces behaviour. -/

structure Route (α : Type) where
  method : String
  handler : α
  deriving Repr, DecidableEq

structure Router (α : Type) where
  routes : List (String × Route α)
  deriving Repr, DecidableEq

def Router.new (α : Type) : Router α := ⟨[]⟩

/-- `Router::add_route`: `self.routes.insert(path.to_string(), Route { method, handler })`. -/
def Router.add_route (r : Router α) (method path : String) (handler : α) : Router α :=
  ⟨(path, ⟨method, handler⟩) :: r.routes⟩

/-- `Router::get_route`: look the path up, then return the handler only if
the stored method equals the queried one. -/
def Router.get_route (r : Router α) (method path : String) : Option α :=
  (r.routes.lookup path).bind fun route =>
    if route.method = method then some route.handler else none

/-! ## Worker pool (`src/thread.rs`)

The mpsc channel is modelled as a FIFO queue of job ids plus the flag
`senderAlive`, which is `true` exactly while `ThreadPool.sender` holds
`Some(sender)` (dropping the sender — `drop(self.sender.take())` in
`Drop::drop` — closes the channel).  `PanicKind` records which `unwrap!` /
`assert!` in the source a panic comes from. -/

inductive PanicKind where
  | assertFailed
  | unwrapNone
  deriving Repr, DecidableEq

structure Channel where
  senderAlive : Bool
  queue : List Nat
  deriving Repr, DecidableEq

/-- Dropping the `mpsc::Sender` closes the channel; queued jobs remain. -/
def Channel.close (c : Channel) : Channel :=
  { c with senderAlive := false }

/-- Result of `receiver.recv()`: a job when the queue is non-empty, the
`RecvError` (exhaustion) when closed and empty, and otherwise the call
blocks awaiting a producer. -/
inductive RecvResult where
  | job (j : Nat) (rest : Channel)
  | exhausted
  | blocked
  deriving Repr, DecidableEq

def Channel.recv (c : Channel) : RecvResult :=
  match c.queue with
  | j :: rest => .job j ⟨c.senderAlive, rest⟩
  | [] => if c.senderAlive then .blocked else .exhausted

/-- The jobs a worker loop calling `recv()` repeatedly receives before
`recv` reports exhaustion; `none` when the loop would block forever
(channel still open once drained). -/
def Channel.drainAll : Channel → Option (List Nat)
  | ⟨true, []⟩ => none
  | ⟨false, []⟩ => some []
  | ⟨alive, j :: rest⟩ => (Channel.drainAll ⟨alive, rest⟩).map (j :: ·)

structure Worker where
  id : Nat
  /-- `thread: Option<JoinHandle<()>>` — `true` while the handle has not
  been taken and joined. -/
  threadRunning : Bool
  deriving Repr, DecidableEq

structure ThreadPool where
  workers : List Worker
  channel : Channel
  /-- History variable: ids of the jobs whose execution has completed, in
  the order the channel delivered them. -/
  executed : List Nat
  deriving Repr, DecidableEq

/-- `ThreadPool::new`: `assert!(size > 0)` runs before the channel is
created and before the spawn loop, so a zero size panics with nothing
spawned; otherwise `size` workers are spawned sharing the receiver. -/
def ThreadPool.new (size : Nat) : Except PanicKind ThreadPool :=
  if 0 < size then
    .ok { workers := (List.range size).map fun id => ⟨id, true⟩
          channel := ⟨true, []⟩
          executed := [] }
  else
    .error .assertFailed

/-- Number of worker threads `ThreadPool::new(size)` spawns: the
`assert!` precedes the spawn loop, so a failing assert spawns none. -/
def ThreadPool.newSpawnCount (size : Nat) : Nat :=
  if 0 < size then size else 0

/-- Outcome of `ThreadPool::execute`.  `closedError` is the outcome the
specification describes — a recoverable `Closed` error value returned to
the caller — and is present so the specified and actual behaviours can be
compared; the source never produces it. -/
inductive ExecOutcome where
  | enqueued (p : ThreadPool)
  | closedError (p : ThreadPool)
  | panicked (kind : PanicKind)
  deriving Repr, DecidableEq

def ExecOutcome.isClosedError : ExecOutcome → Bool
  | .closedError _ => true
  | _ => false

/-- `ThreadPool::execute`: `self.sender.as_ref().unwrap().send(job).unwrap()`.
With the sender taken (shutdown begun), `as_ref().unwrap()` panics on
`None`; otherwise `send` enqueues (the workers hold the receiver, so
`send` succeeds while the pool is alive). -/
def ThreadPool.execute (p : ThreadPool) (j : Nat) : ExecOutcome :=
  if p.channel.senderAlive then
    .enqueued { p with channel := ⟨p.channel.senderAlive, p.channel.queue ++ [j]⟩ }
  else
    .panicked .unwrapNone

/-- `Drop for ThreadPool`: drop the sender (closing the channel), then
join every worker thread.  Joining blocks until each worker's loop has
received `Exhausted`, so the workers between them drain every job still
queued at close time; `drainAll` of the closed channel is that drain. -/
def ThreadPool.shutdown (p : ThreadPool) : ThreadPool :=
  let closed := p.channel.close
  { workers := p.workers.map fun w => ⟨w.id, false⟩
    channel := ⟨false, []⟩
    executed := p.executed ++ (closed.drainAll.getD []) }

/-! ## Worker loop execution (`Worker::new`, `src/thread.rs:74-87`)

`JobSpec` is a job's observable behaviour when run.  `workerRun js`
follows the spawned loop on the stream of messages `js` delivered by
`recv()` (followed by channel exhaustion): `Ok(job) => job()` has no
panic handler, so a panicking job unwinds out of the loop closure and the
thread dies; `Err(_) => break` ends the loop normally. -/

inductive JobSpec where
  | completes
  | panics
  deriving Repr, DecidableEq

inductive WorkerExit where
  /-- the loop hit `Err(_) => break` after the channel was exhausted -/
  | exhausted
  /-- a job's panic unwound past the loop and killed the thread -/
  | unwound
  deriving Repr, DecidableEq

structure WorkerRun where
  exit : WorkerExit
  /-- how many jobs from the stream the worker started executing -/
  started : Nat
  deriving Repr, DecidableEq

def workerRun : List JobSpec → WorkerRun
  | [] => ⟨.exhausted, 0⟩
  | .completes :: rest =>
      let r := workerRun rest
      ⟨r.exit, r.started + 1⟩
  | .panics :: _ => ⟨.unwound, 1⟩

/-! ## HTTP glue (`src/main.rs`)

`validate_request` takes the first line read from the stream:
`BufReader::lines().next()` yields `Option<io::Result<String>>`, embedded
as `Option (Except Unit String)`.  `fs::read_to_string` is abstracted by
an oracle `readFile : String → Option String` (`none` = read error). -/

inductive HTTPError where
  | invalidRequest
  | notFound
  deriving Repr, DecidableEq

def get_status_line_and_file_from_http_status : HTTPError → String × String
  | .invalidRequest => ("HTTP/1.1 400 Bad Request", "400.html")
  | .notFound => ("HTTP/1.1 404 Not Found", "404.html")

/-- Splits a character list at whitespace runs, never yielding an empty
chunk; `acc` holds the current chunk's characters in reverse. -/
def splitWhitespaceAux : List Char → List Char → List String
  | [], [] => []
  | [], acc => [String.mk acc.reverse]
  | c :: rest, acc =>
    if c.isWhitespace then
      if acc.isEmpty then splitWhitespaceAux rest []
      else String.mk acc.reverse :: splitWhitespaceAux rest []
    else splitWhitespaceAux rest (c :: acc)

/-- Rust's `str::split_whitespace`: split on whitespace runs, yielding no
empty substrings and ignoring leading/trailing whitespace. -/
def splitWhitespace (s : String) : List String :=
  splitWhitespaceAux s.toList []

/-- `validate_request` (`src/main.rs:57-91`): missing first line or a
read error is `InvalidRequest`; otherwise the line must split into
exactly three whitespace-separated parts (the `parts.len() != 3` check,
expressed by matching the three-element list), the method must be `GET`
and the version `HTTP/1.1`. -/
def validate_request (firstLine : Option (Except Unit String)) :
    Except HTTPError (String × String × String) :=
  match firstLine with
  | none => .error .invalidRequest
  | some (.error _) => .error .invalidRequest
  | some (.ok request) =>
    match splitWhitespace request with
    | [method, uri, version] =>
      if method ≠ "GET" then .error .invalidRequest
      else if version ≠ "HTTP/1.1" then .error .invalidRequest
      else .ok (method, uri, version)
    | _ => .error .invalidRequest

def internalServerErrorPage : String :=
  "<DOCTYPE html><html><head></head><body><h1>500 Internal Server Error</h1></body></html>"

/-- `get_file_contents`: the file's contents on success, the hard-coded
500 page on any read error (the error is also logged). -/
def get_file_contents (readFile : String → Option String) (path : String) : String :=
  match readFile path with
  | some contents => contents
  | none => internalServerErrorPage

/-- `config.path_to_resources.join(file)`. -/
def joinPath (root file : String) : String :=
  root ++ "/" ++ file

/-- `construct_respoonse` (source spelling): the `format!` call building
status line, `Content-Length` (Rust `str::len` is the UTF-8 byte length),
`Content-Type`, blank line, body. -/
def construct_respoonse (status_line : String) (contents : String) : String :=
  s!"{status_line}\r\nContent-Length: {contents.utf8ByteSize}\r\nContent-Type: text/html; charset=UTF-8\r\n\r\n{contents}"

/-- The response `handle_connection` (`src/main.rs:119-161`) writes to
the stream.  On validation failure: the 400/404 page for the error.  On
a router hit: status line `HTTP/1.1 200 OK` is chosen *before* the file
read, then `handler().unwrap()` (panics if the handler returns `None`),
then the file contents (or the substituted 500 page) are sent under that
status line.  On a router miss: the 404 page. -/
def handle_connection (readFile : String → Option String) (resRoot : String)
    (router : Router (Option String)) (firstLine : Option (Except Unit String)) :
    Except PanicKind String :=
  match validate_request firstLine with
  | .error e =>
    let (status_line, file) := get_status_line_and_file_from_http_status e
    .ok (construct_respoonse status_line (get_file_contents readFile (joinPath resRoot file)))
  | .ok (method, uri, _version) =>
    let status_line := "HTTP/1.1 200 OK"
    match router.get_route method uri with
    | some handlerResult =>
      match handlerResult with
      | some file =>
        .ok (construct_respoonse status_line (get_file_contents readFile (joinPath resRoot file)))
      | none => .error .unwrapNone
    | none =>
      let (status_line, file) := get_status_line_and_file_from_http_status .notFound
      .ok (construct_respoonse status_line (get_file_contents readFile (joinPath resRoot file)))

/-! ## Logger (`src/logger/log.rs`)

`Logger::log` is pure but for the write: it picks the level tag and the
output stream in one match, then writes one `writeln!` line
`[timestamp] [LEVEL] message`.  The timestamp (seconds since the Unix
epoch, `0` on clock error) is a parameter here. -/

inductive LogLevel where
  | debug
  | info
  | warning
  | error
  deriving Repr, DecidableEq

inductive OutStream where
  | stdout
  | stderr
  deriving Repr, DecidableEq

/-- The stream written to and the text emitted by one `Logger::log` call. -/
def Logger.log (timestamp : Nat) (level : LogLevel) (message : String) :
    OutStream × String :=
  let (level_str, output) :=
    match level with
    | .debug => ("DEBUG", OutStream.stdout)
    | .info => ("INFO", OutStream.stdout)
    | .warning => ("WARNING", OutStream.stdout)
    | .error => ("ERROR", OutStream.stderr)
  (output, s!"[{timestamp}] [{level_str}] {message}\n")

/-! ## Concrete fixtures and statement vocabulary -/

/-- The pool of size 1 after a completed shutdown. -/
def poolAfterShutdown : ThreadPool :=
  (match ThreadPool.new 1 with
   | .ok p => p
   | .error _ => ⟨[], ⟨true, []⟩, []⟩).shutdown

/-- A pool with one worker, jobs `1, 2` queued and job `0` already run. -/
def samplePool : ThreadPool :=
  ⟨[⟨0, true⟩], ⟨true, [1, 2]⟩, [0]⟩

/-- The router of the specification's test scenario:
`GET /` → `index.html`, `POST /contact` → `contact.html`. -/
def scenarioRouter : Router (Option String) :=
  ((Router.new (Option String)).add_route "GET" "/" (some "index.html")).add_route
    "POST" "/contact" (some "contact.html")

/-- The level tag `Logger::log` prints for each level. -/
def levelTag : LogLevel → String
  | .debug => "DEBUG"
  | .info => "INFO"
  | .warning => "WARNING"
  | .error => "ERROR"

/-! ## Theorems -/

/-- A closed channel delivers every job still queued, in order, before
reporting exhaustion (`mpsc`: dropping the sender does not drop queued
messages). -/
theorem Channel.drainAll_closed (q : List Nat) :
    Channel.drainAll ⟨false, q⟩ = some q := by
  induction q with
  | nil => simp [Channel.drainAll]
  | cons j rest ih => simp [Channel.drainAll, ih]

/-- C3: constructing a pool with size 0 fails immediately (the `assert!`
aborts construction) and spawns no worker thread, while every positive
size yields a pool with exactly that many workers and a fresh open
channel. -/
theorem new_zero_fails_and_positive_succeeds :
    ThreadPool.new 0 = .error .assertFailed ∧
    ThreadPool.newSpawnCount 0 = 0 ∧
    ∀ size : Nat, 0 < size →
      ∃ p : ThreadPool, ThreadPool.new size = .ok p ∧
        p.workers.length = size ∧ p.channel = ⟨true, []⟩ := by
  refine ⟨rfl, rfl, fun size h => ?_⟩
  refine ⟨{ workers := (List.range size).map fun id => ⟨id, true⟩,
            channel := ⟨true, []⟩, executed := [] }, ?_, ?_, rfl⟩
  · simp [ThreadPool.new, h]
  · simp

/-- C3 witness: `ThreadPool::new(3)` succeeds with three workers. -/
theorem new_zero_fails_and_positive_succeeds_witness :
    (0 : Nat) < 3 ∧
    ∃ p : ThreadPool, ThreadPool.new 3 = .ok p ∧
      p.workers.length = 3 ∧ p.channel = ⟨true, []⟩ :=
  ⟨by decide, new_zero_fails_and_positive_succeeds.2.2 3 (by decide)⟩

/-- C1 counterexample: on the size-1 pool after completed shutdown,
`execute` does not report a recoverable `Closed` error value to the
caller — it panics (`self.sender.as_ref().unwrap()` on `None`). -/
theorem execute_after_shutdown_is_panic_not_closedError :
    (poolAfterShutdown.execute 0).isClosedError = false ∧
    poolAfterShutdown.execute 0 = .panicked .unwrapNone := by
  constructor <;> rfl

/-- C1 amended: after shutdown has completed (the sender has been taken),
every `execute` call panics via `unwrap` on the absent sender — a crash,
not a recoverable error — and the job is not enqueued. -/
theorem execute_after_shutdown_panics (p : ThreadPool) (j : Nat)
    (h : p.channel.senderAlive = false) :
    p.execute j = .panicked .unwrapNone ∧
    ∀ p' : ThreadPool, p.execute j ≠ .enqueued p' := by
  refine ⟨?_, ?_⟩ <;> simp [ThreadPool.execute, h]

/-- C1 amended witness: the size-1 pool after shutdown. -/
theorem execute_after_shutdown_panics_witness :
    poolAfterShutdown.execute 0 = .panicked .unwrapNone ∧
    ∀ p' : ThreadPool, poolAfterShutdown.execute 0 ≠ .enqueued p' :=
  execute_after_shutdown_panics poolAfterShutdown 0 rfl

/-- C2 counterexample: with a panicking first job followed by one more
job, the worker's loop does not continue — the thread exits by unwinding
(`job()` has no panic handler) having started only the first job, so the
second is never executed by that worker. -/
theorem worker_dies_on_panicking_job :
    (workerRun [.panics, .completes]).exit ≠ .exhausted ∧
    (workerRun [.panics, .completes]).started = 1 := by
  decide

/-- C2 amended: a panicking job unwinds past the worker's loop boundary
and terminates the worker thread; the jobs after it in the worker's
message stream are never started by that worker. -/
theorem panicking_job_unwinds_worker (pre post : List JobSpec)
    (h : ∀ j ∈ pre, j = .completes) :
    workerRun (pre ++ .panics :: post) = ⟨.unwound, pre.length + 1⟩ := by
  induction pre with
  | nil => rfl
  | cons a rest ih =>
    have ha : a = .completes := h a (by simp)
    subst ha
    simp [workerRun, ih fun j hj => h j (by simp [hj])]

/-- C2 amended witness: one completing job, then a panicking one, then
another job — the worker starts two jobs and dies unwinding. -/
theorem panicking_job_unwinds_worker_witness :
    workerRun ([JobSpec.completes] ++ .panics :: [.completes]) = ⟨.unwound, 2⟩ :=
  panicking_job_unwinds_worker [.completes] [.completes] (by decide)

/-- C4: shutdown closes the Job Channel and, having joined every worker
thread (none left running when it returns), extends the execution history
by exactly the jobs queued at close time — every previously submitted job
is executed exactly once (counts add), and none is dropped. -/
theorem shutdown_joins_and_drains (p : ThreadPool) :
    (∀ w ∈ p.shutdown.workers, w.threadRunning = false) ∧
    p.shutdown.executed = p.executed ++ p.channel.queue ∧
    (∀ j : Nat, p.shutdown.executed.count j
        = p.executed.count j + p.channel.queue.count j) ∧
    p.shutdown.channel = ⟨false, []⟩ := by
  refine ⟨?_, ?_, ?_, rfl⟩
  · intro w hw
    simp [ThreadPool.shutdown] at hw
    obtain ⟨a, _, rfl⟩ := hw
    rfl
  · simp [ThreadPool.shutdown, Channel.close, Channel.drainAll_closed]
  · intro j
    simp [ThreadPool.shutdown, Channel.close, Channel.drainAll_closed, List.count_append]

/-- C4 witness: a pool with jobs 1 and 2 queued and job 0 already run. -/
theorem shutdown_joins_and_drains_witness :
    (⟨0, false⟩ : Worker).threadRunning = false ∧
    samplePool.shutdown.executed = samplePool.executed ++ samplePool.channel.queue ∧
    samplePool.shutdown.executed.count 1
      = samplePool.executed.count 1 + samplePool.channel.queue.count 1 :=
  ⟨(shutdown_joins_and_drains samplePool).1 ⟨0, false⟩ (by decide),
   (shutdown_joins_and_drains samplePool).2.1,
   (shutdown_joins_and_drains samplePool).2.2.1 1⟩

/-- C5: lookup is exact-match and case-sensitive on method and path:
`get_route` returns a handler exactly when the path's registered route
exists and its stored method equals the queried method string (Lean
`String` equality is character-for-character); on the specification's
scenario router, `("GET","/")` hits `index.html`, `("GET","/contact")`
misses, `("POST","/contact")` hits `contact.html`, and the lowercase
method `"get"` misses. -/
theorem get_route_exact_match :
    (∀ (α : Type) (r : Router α) (method path : String) (h : α),
      r.get_route method path = some h ↔
        ∃ route : Route α, r.routes.lookup path = some route ∧
          route.method = method ∧ route.handler = h) ∧
    scenarioRouter.get_route "GET" "/" = some (some "index.html") ∧
    scenarioRouter.get_route "GET" "/contact" = none ∧
    scenarioRouter.get_route "POST" "/contact" = some (some "contact.html") ∧
    scenarioRouter.get_route "get" "/" = none := by
  refine ⟨?_, by decide, by decide, by decide, by decide⟩
  intro α r method path h
  cases hl : r.routes.lookup path with
  | none => simp [Router.get_route, hl]
  | some route =>
    by_cases hm : route.method = method
    · simp only [Router.get_route, hl, Option.some_bind, if_pos hm]
      constructor
      · rintro hh
        injection hh with hh
        exact ⟨route, rfl, hm, hh⟩
      · rintro ⟨route2, hr2, hm2, hh2⟩
        injection hr2 with hr2
        subst hr2
        simp [hh2]
    · simp only [Router.get_route, hl, Option.some_bind, if_neg hm]
      constructor
      · intro hh
        cases hh
      · rintro ⟨route2, hr2, hm2, hh2⟩
        injection hr2 with hr2
        subst hr2
        exact absurd hm2 hm

/-- C5 witness: the characterization applied to the scenario router's
`GET /` lookup. -/
theorem get_route_exact_match_witness :
    ∃ route : Route (Option String), scenarioRouter.routes.lookup "/" = some route ∧
      route.method = "GET" ∧ route.handler = some "index.html" :=
  (get_route_exact_match.1 (Option String) scenarioRouter "GET" "/" (some "index.html")).mp
    (by decide)

/-- C9: the route table is keyed by path alone, so registering a second
route at the same path with a different method replaces the first: the
old method now misses and the new method returns the new handler. -/
theorem add_route_same_path_replaces (α : Type) (r : Router α)
    (m1 m2 p : String) (h1 h2 : α) (hne : m1 ≠ m2) :
    ((r.add_route m1 p h1).add_route m2 p h2).get_route m1 p = none ∧
    ((r.add_route m1 p h1).add_route m2 p h2).get_route m2 p = some h2 := by
  have hne' : ¬(m2 = m1) := fun hh => hne hh.symm
  constructor <;>
    simp [Router.add_route, Router.get_route, List.lookup, hne']

/-- C9 witness: `GET /x → a` then `POST /x → b`. -/
theorem add_route_same_path_replaces_witness :
    (((Router.new String).add_route "GET" "/x" "a").add_route "POST" "/x" "b").get_route
        "GET" "/x" = none ∧
    (((Router.new String).add_route "GET" "/x" "a").add_route "POST" "/x" "b").get_route
        "POST" "/x" = some "b" :=
  add_route_same_path_replaces String (Router.new String) "GET" "POST" "/x" "a" "b"
    (by decide)

/-- C6: `validate_request` accepts an input exactly when its first line
was read successfully and splits into three whitespace-separated parts
with method `GET` and version `HTTP/1.1`, returning that triple; every
rejection is the `InvalidRequest` error, which maps to the
`HTTP/1.1 400 Bad Request` status line and the `400.html` page. -/
theorem validate_request_characterization :
    (∀ (inp : Option (Except Unit String)) (m t v : String),
      validate_request inp = .ok (m, t, v) ↔
        ∃ line : String, inp = some (.ok line) ∧
          splitWhitespace line = [m, t, v] ∧ m = "GET" ∧ v = "HTTP/1.1") ∧
    (∀ (inp : Option (Except Unit String)) (e : HTTPError),
      validate_request inp = .error e → e = .invalidRequest) ∧
    get_status_line_and_file_from_http_status .invalidRequest
      = ("HTTP/1.1 400 Bad Request", "400.html") := by
  refine ⟨?_, ?_, rfl⟩
  · intro inp m t v
    match inp with
    | none => simp [validate_request]
    | some (.error u) => simp [validate_request]
    | some (.ok line) =>
      simp only [validate_request, Option.some.injEq, Except.ok.injEq, exists_eq_left']
      match hs : splitWhitespace line with
      | [] => simp [hs]
      | [a] => simp [hs]
      | [a, b] => simp [hs]
      | a :: b :: c :: d :: rest => simp [hs]
      | [a, b, c] =>
        by_cases hg : a = "GET"
        · by_cases hv : c = "HTTP/1.1"
          · subst hg; subst hv
            simp [hs]
            rintro rfl rfl rfl
            exact ⟨rfl, rfl⟩
          · simp [hs, hg, hv]
            rintro rfl rfl rfl _
            exact hv
        · simp [hs, hg]
          rintro rfl rfl rfl h
          exact absurd h hg
  · intro inp e h
    unfold validate_request at h
    repeat' split at h
    all_goals simp_all

/-- C6 witness: `GET /idx HTTP/1.1` is accepted; `POST / HTTP/1.1` is
rejected as `InvalidRequest`. -/
theorem validate_request_characterization_witness :
    (∃ line : String,
      (some (Except.ok "GET /idx HTTP/1.1") : Option (Except Unit String))
          = some (.ok line) ∧
        splitWhitespace line = ["GET", "/idx", "HTTP/1.1"] ∧
        "GET" = "GET" ∧ "HTTP/1.1" = "HTTP/1.1") ∧
    HTTPError.invalidRequest = HTTPError.invalidRequest :=
  ⟨(validate_request_characterization.1 (some (.ok "GET /idx HTTP/1.1"))
      "GET" "/idx" "HTTP/1.1").mp (by rfl),
   validate_request_characterization.2.1 (some (.ok "POST / HTTP/1.1"))
     .invalidRequest (by rfl)⟩

/-- C7: for every status line and body, the constructed response is the
status line, CRLF, a `Content-Length` header whose value is the body's
UTF-8 byte length, CRLF, the `Content-Type: text/html; charset=UTF-8`
header, CRLF, a blank line, and then the body bytes unchanged. -/
theorem construct_respoonse_shape (status_line contents : String) :
    construct_respoonse status_line contents =
      status_line ++ "\r\n" ++ "Content-Length: " ++ toString contents.utf8ByteSize
        ++ "\r\n" ++ "Content-Type: text/html; charset=UTF-8" ++ "\r\n" ++ "\r\n"
        ++ contents := by
  simp [construct_respoonse, String.append_assoc, ToString.toString, instToStringString]

/-- C8: one `Logger::log` call emits the single newline-terminated line
`[timestamp] [LEVEL] message`, and the stream written to is standard
error exactly for `ERROR` (standard output for `DEBUG`, `INFO`,
`WARNING`). -/
theorem logger_log_format (timestamp : Nat) (level : LogLevel) (message : String) :
    (Logger.log timestamp level message).2 =
      "[" ++ toString timestamp ++ "] [" ++ levelTag level ++ "] " ++ message ++ "\n" ∧
    ((Logger.log timestamp level message).1 = .stderr ↔ level = .error) := by
  cases level <;>
    exact ⟨by simp [Logger.log, levelTag, String.append_assoc, ToString.toString,
             instToStringString], by simp [Logger.log]⟩

/-- C8 witness: an `ERROR` log at timestamp 7 goes to standard error in
the stated format. -/
theorem logger_log_format_witness :
    (Logger.log 7 .error "m").2 =
      "[" ++ toString 7 ++ "] [" ++ levelTag .error ++ "] " ++ "m" ++ "\n" ∧
    LogLevel.error = LogLevel.error :=
  ⟨(logger_log_format 7 .error "m").1, (logger_log_format 7 .error "m").2.mp rfl⟩

/-- C10: when validation and routing succeed but reading the resolved
file fails, the connection handler still sends the response under the
status line chosen before the read — `HTTP/1.1 200 OK` — with the
substituted 500 page as the body; the read failure does not change the
status line. -/
theorem read_failure_keeps_status_line (readFile : String → Option String)
    (resRoot : String) (router : Router (Option String))
    (firstLine : Option (Except Unit String)) (m u v file : String)
    (hv : validate_request firstLine = .ok (m, u, v))
    (hr : router.get_route m u = some (some file))
    (hf : readFile (joinPath resRoot file) = none) :
    handle_connection readFile resRoot router firstLine =
      .ok (construct_respoonse "HTTP/1.1 200 OK" internalServerErrorPage) := by
  simp [handle_connection, hv, hr, get_file_contents, hf]

/-- C10 witness: `GET /` on the scenario router with every file read
failing yields a `200 OK` response carrying the 500 page. -/
theorem read_failure_keeps_status_line_witness :
    handle_connection (fun _ => none) "res" scenarioRouter
        (some (.ok "GET / HTTP/1.1")) =
      .ok (construct_respoonse "HTTP/1.1 200 OK" internalServerErrorPage) :=
  read_failure_keeps_status_line (fun _ => none) "res" scenarioRouter
    (some (.ok "GET / HTTP/1.1")) "GET" "/" "HTTP/1.1" "index.html"
    (by rfl) (by decide) rfl

end RustWebserver
